import Mathlib

/-!
Verification of the tool-calling client `examples/python-client.py` of the
claude-code-gateway repository.

The development shallowly embeds the client's core: the `ToolExecutor`
handlers (`calculate`, `search`, `get_weather`), the dispatch function
`execute_tool_call`, and the tool-call section of the orchestration loop
`chat_with_tools`.

Modelling conventions:
* JSON values are the inductive `JVal`; tool results are JSON objects
  (`JObj`), exactly as the Python handlers return dicts.
* Python exceptions that escape a function are modelled by `Except PyError`:
  an `.error` value is an uncaught exception, an `.ok` value a returned
  result.  Handlers that cannot raise return plain values.
* Python numbers are modelled by exact rationals.  IEEE floating point is
  not modelled: `/` is exact division, `math.sqrt` yields a value only when
  the exact square root is rational (otherwise evaluation is treated as a
  failure of the exact model), and `**` is modelled for integer exponents.
  Consequently the only fragment on which the model provably coincides with
  Python's arithmetic is the integer fragment (integer literals, `+ - *`
  and `**` with nonnegative exponents), where CPython computes with exact
  arbitrary-precision integers; theorems about computed values are
  restricted to that fragment (`PExpr.intArith`, `intEval`).
* A Python value that is not a number — the module or builtin-function
  object obtained by evaluating a bare allowed name such as `math` — is
  modelled by `PyVal.obj`.  Such a value makes `calculate` return
  `success=True` with a non-JSON-serializable result (`JVal.jpy`), exactly
  as Python does, and the dispatch step then raises `TypeError` at the
  `json.dumps` call on line 164 (modelled by `dumpGuard`).
* `random.randint(a, b)` is modelled by `randint a b s` for an arbitrary
  seed `s`; it realises exactly the contract of returning a value in
  `[a, b]`.  One `RandSeeds` record stands for the random draws made by a
  single `get_weather` call.
* `str.replace` is modelled by `pyReplace`, a single left-to-right
  non-overlapping pass, the same semantics as Python's `str.replace`.
* `eval` of the normalized arithmetic string is modelled by tokenizing and
  parsing a subset of the Python expression grammar (numeric literals,
  `+ - * / **`, unary signs, parentheses, identifiers and single-argument
  calls) and evaluating the tree with Python's error behaviour; the
  restricted namespace passed to `eval` is the `allowedNames` set, and
  name lookup failure is a `NameError`.  Strings outside the modelled
  grammar subset (multi-argument calls, `%`, string literals, attribute
  and subscript chains, …) are treated as evaluation failures; they are
  excluded from the scope of every theorem whose hypotheses require a
  successful parse, and no theorem relies on the model's behaviour there.
-/

namespace Gateway

/-! ## JSON values -/

/-- JSON values, the shape of the dicts the Python handlers build.
`jpy` stands for a Python value that is not JSON-serializable (a module or
function object); `json.dumps` raises `TypeError` on it. -/
inductive JVal where
  | jnull
  | jbool (b : Bool)
  | jint (n : Int)
  | jrat (q : ℚ)
  | jstr (s : String)
  | jarr (xs : List JVal)
  | jobj (fields : List (String × JVal))
  | jpy (desc : String)

/-- A JSON object: an ordered list of key/value pairs (dict insertion order). -/
abbrev JObj := List (String × JVal)

/-- Look up a key in a JSON object (first occurrence). -/
def JObj.get (o : JObj) (k : String) : Option JVal :=
  (o.find? (fun kv => kv.1 = k)).map (fun kv => kv.2)

/-- Serialize a JSON value, as `json.dumps(..., ensure_ascii=False)` does
(default separators; string escaping is not modelled).  The fuel bounds the
nesting depth; the client's data is nested at most a few levels deep. -/
def renderJV : Nat → JVal → String
  | _, .jnull => "null"
  | _, .jbool b => if b then "true" else "false"
  | _, .jint n => toString n
  | _, .jrat q => toString q
  | _, .jstr s => "\"" ++ s ++ "\""
  | _, .jpy d => "<" ++ d ++ ">"
  | 0, .jarr _ => ""
  | 0, .jobj _ => ""
  | fuel+1, .jarr xs =>
      "[" ++ String.intercalate ", " (xs.map (renderJV fuel)) ++ "]"
  | fuel+1, .jobj fs =>
      "\x7b" ++ String.intercalate ", "
        (fs.map (fun kv => "\"" ++ kv.1 ++ "\": " ++ renderJV fuel kv.2)) ++ "\x7d"

/-- Serialization of a tool-result dict: `json.dumps(result, ensure_ascii=False)`. -/
def jsonDumps (o : JObj) : String := renderJV 64 (.jobj o)

/-! ## Python `str.replace` -/

/-- One left-to-right, non-overlapping replacement pass over a character
list, the semantics of Python `str.replace`.  The fuel is an upper bound on
the number of characters consumed; callers pass the list length. -/
def replaceAux (pat repl : List Char) : Nat → List Char → List Char
  | _, [] => []
  | 0, s => s
  | fuel+1, c :: cs =>
    if pat.isPrefixOf (c :: cs) then
      repl ++ replaceAux pat repl fuel (List.drop (pat.length - 1) cs)
    else c :: replaceAux pat repl fuel cs

/-- Python `s.replace(pat, repl)`: replaces every non-overlapping occurrence
of `pat`, scanning the original string once from the left. -/
def pyReplace (s pat repl : String) : String :=
  if pat.isEmpty then s else ⟨replaceAux pat.data repl.data s.data.length s.data⟩

/-! ## The arithmetic evaluator behind `ToolExecutor.calculate` -/

/-- Tokens of the Python expression subset the client can produce. -/
inductive Tok where
  | num (ip : Nat) (fp : Option (List Nat))
  | name (s : String)
  | plus
  | minus
  | star
  | slash
  | dstar
  | lparen
  | rparen
  | comma
deriving DecidableEq, Repr

/-- Identifier start characters (Python: letters and underscore). -/
def isIdentStart (c : Char) : Bool := c.isAlpha || c = '_'

/-- Identifier continuation characters; the dot is included so that the
attribute access `math.sqrt` produced by the normalization step is scanned
as a single callable name. -/
def isIdentChar (c : Char) : Bool := c.isAlpha || c.isDigit || c = '_' || c = '.'

/-- Numeric value of a list of decimal digit characters. -/
def digitsVal (ds : List Char) : Nat :=
  ds.foldl (fun a c => 10 * a + (c.toNat - 48)) 0

/-- Tokenizer for the arithmetic sublanguage.  Characters outside the
sublanguage make tokenization fail, which the evaluator reports as a
syntax error (Python raises `SyntaxError` from `eval`).  Python's integer
literal grammar forbids a leading zero in front of further digits (except
an all-zero literal); such literals are a `SyntaxError`, as in Python
(float literals allow leading zeros). -/
def tokenize : Nat → List Char → Option (List Tok)
  | _, [] => some []
  | 0, _ => none
  | fuel+1, c :: cs =>
    if c = ' ' || c = '\t' then tokenize fuel cs
    else if c.isDigit || (c = '.' && (cs.headD ' ').isDigit) then
      let sp := (c :: cs).span Char.isDigit
      match sp.2 with
      | '.' :: r2 =>
        let sp2 := r2.span Char.isDigit
        (tokenize fuel sp2.2).map
          (fun ts => Tok.num (digitsVal sp.1) (some (sp2.1.map (fun d => d.toNat - 48))) :: ts)
      | _ =>
        if sp.1.headD '0' = '0' && sp.1.any (fun d => d != '0') then none
        else (tokenize fuel sp.2).map (fun ts => Tok.num (digitsVal sp.1) none :: ts)
    else if isIdentStart c then
      let sp := (c :: cs).span isIdentChar
      (tokenize fuel sp.2).map (fun ts => Tok.name ⟨sp.1⟩ :: ts)
    else if c = '+' then (tokenize fuel cs).map (fun ts => Tok.plus :: ts)
    else if c = '-' then (tokenize fuel cs).map (fun ts => Tok.minus :: ts)
    else if c = '*' then
      match cs with
      | '*' :: cs2 => (tokenize fuel cs2).map (fun ts => Tok.dstar :: ts)
      | _ => (tokenize fuel cs).map (fun ts => Tok.star :: ts)
    else if c = '/' then (tokenize fuel cs).map (fun ts => Tok.slash :: ts)
    else if c = '(' then (tokenize fuel cs).map (fun ts => Tok.lparen :: ts)
    else if c = ')' then (tokenize fuel cs).map (fun ts => Tok.rparen :: ts)
    else if c = ',' then (tokenize fuel cs).map (fun ts => Tok.comma :: ts)
    else none

/-- Abstract syntax of the evaluated expressions.  A numeric literal keeps
its integer digits and optional fractional digits. -/
inductive PExpr where
  | num (ip : Nat) (fp : Option (List Nat))
  | var (name : String)
  | call (f : String) (arg : PExpr)
  | neg (a : PExpr)
  | pos (a : PExpr)
  | add (a b : PExpr)
  | sub (a b : PExpr)
  | mul (a b : PExpr)
  | div (a b : PExpr)
  | pow (a b : PExpr)
deriving DecidableEq, Repr

/-- Value of the fractional digit list of a literal. -/
def fracVal (fp : List Nat) : ℚ :=
  (fp.foldl (fun a d => 10 * a + d) 0 : ℚ) / (10 : ℚ) ^ fp.length

/-- Exact value of a numeric literal. -/
def numValue (ip : Nat) (fp : Option (List Nat)) : ℚ :=
  match fp with
  | none => (ip : ℚ)
  | some l => (ip : ℚ) + fracVal l

/-- Parser modes: one defunctionalized recursive-descent parser for the
Python grammar levels (additive, multiplicative, unary, power, atom),
with the loop accumulators carried in the mode. -/
inductive PMode where
  | expr
  | exprRest (acc : PExpr)
  | term
  | termRest (acc : PExpr)
  | unary
  | power
  | atom

/-- Recursive-descent parser with Python operator precedence:
`a ** b` binds tightest and is right associative with a unary-signed
exponent; unary sign; then `* /`; then `+ -`.  Written structurally on a
fuel argument so that it evaluates inside the kernel. -/
def parseGo : Nat → PMode → List Tok → Option (PExpr × List Tok)
  | 0, _, _ => none
  | fuel+1, .expr, ts =>
    (match parseGo fuel .term ts with
     | none => none
     | some (a, r) => parseGo fuel (.exprRest a) r)
  | fuel+1, .exprRest acc, Tok.plus :: ts =>
    (match parseGo fuel .term ts with
     | none => none
     | some (b, r) => parseGo fuel (.exprRest (.add acc b)) r)
  | fuel+1, .exprRest acc, Tok.minus :: ts =>
    (match parseGo fuel .term ts with
     | none => none
     | some (b, r) => parseGo fuel (.exprRest (.sub acc b)) r)
  | _+1, .exprRest acc, ts => some (acc, ts)
  | fuel+1, .term, ts =>
    (match parseGo fuel .unary ts with
     | none => none
     | some (a, r) => parseGo fuel (.termRest a) r)
  | fuel+1, .termRest acc, Tok.star :: ts =>
    (match parseGo fuel .unary ts with
     | none => none
     | some (b, r) => parseGo fuel (.termRest (.mul acc b)) r)
  | fuel+1, .termRest acc, Tok.slash :: ts =>
    (match parseGo fuel .unary ts with
     | none => none
     | some (b, r) => parseGo fuel (.termRest (.div acc b)) r)
  | _+1, .termRest acc, ts => some (acc, ts)
  | fuel+1, .unary, Tok.minus :: ts =>
    (parseGo fuel .unary ts).map (fun p => (.neg p.1, p.2))
  | fuel+1, .unary, Tok.plus :: ts =>
    (parseGo fuel .unary ts).map (fun p => (.pos p.1, p.2))
  | fuel+1, .unary, ts => parseGo fuel .power ts
  | fuel+1, .power, ts =>
    (match parseGo fuel .atom ts with
     | none => none
     | some (a, Tok.dstar :: r) =>
       (parseGo fuel .unary r).map (fun p => (.pow a p.1, p.2))
     | some (a, r) => some (a, r))
  | _+1, .atom, Tok.num ip fp :: ts => some (.num ip fp, ts)
  | fuel+1, .atom, Tok.name f :: Tok.lparen :: ts =>
    (match parseGo fuel .expr ts with
     | some (a, Tok.rparen :: r) => some (.call f a, r)
     | _ => none)
  | _+1, .atom, Tok.name s :: ts => some (.var s, ts)
  | fuel+1, .atom, Tok.lparen :: ts =>
    (match parseGo fuel .expr ts with
     | some (a, Tok.rparen :: r) => some (a, r)
     | _ => none)
  | _+1, .atom, _ => none

/-- Parse a whole string of the arithmetic sublanguage. -/
def parseCalc (s : String) : Option PExpr :=
  match tokenize (s.data.length + 1) s.data with
  | none => none
  | some ts =>
    match parseGo (8 * ts.length + 8) .expr ts with
    | some (e, []) => some e
    | _ => none

/-- The names bound in the restricted namespace handed to `eval`
(`math`, `abs`, `round`, `min`, `max`); everything else is a `NameError`. -/
def allowedNames : List String := ["math", "abs", "round", "min", "max"]

/-- The callables reachable through that namespace in the client's usage. -/
def allowedCallables : List String := ["math.sqrt", "abs", "round", "min", "max"]

/-- Exact rational square root, when it exists. -/
def ratSqrt (q : ℚ) : Option ℚ :=
  if q < 0 then none
  else
    let sn := Nat.sqrt q.num.toNat
    let sd := Nat.sqrt q.den
    if (sn * sn : ℤ) = q.num ∧ sd * sd = q.den then
      some ((sn : ℚ) / (sd : ℚ))
    else none

/-- Round half to even, the semantics of Python `round`. -/
def roundHalfEven (q : ℚ) : ℤ :=
  if q - ⌊q⌋ < 1/2 then ⌊q⌋
  else if (1/2 : ℚ) < q - ⌊q⌋ then ⌊q⌋ + 1
  else if ⌊q⌋ % 2 = 0 then ⌊q⌋ else ⌊q⌋ + 1

/-- A value produced by evaluating an expression: either a number, or a
non-numeric Python object (the module or builtin-function object obtained
by evaluating a bare name of the restricted namespace). -/
inductive PyVal where
  | num (q : ℚ)
  | obj (desc : String)
deriving DecidableEq, Repr

/-- Apply one of the allowed callables to an evaluated numeric argument,
with Python's failure behaviour (`math.sqrt` of a negative raises a domain
error; `min`/`max` of one non-iterable argument raise `TypeError`). -/
def applyFn (f : String) (v : ℚ) : Except String PyVal :=
  if f = "math.sqrt" then
    if v < 0 then .error "math domain error"
    else
      match ratSqrt v with
      | some r => .ok (.num r)
      | none => .error "irrational square root is outside the exact model"
  else if f = "abs" then .ok (.num |v|)
  else if f = "round" then .ok (.num (roundHalfEven v : ℚ))
  else .error ("argument passed to " ++ f ++ " is not iterable")

/-- Python `**` on numbers: integer exponents, with `0 ** n` for negative
`n` raising `ZeroDivisionError`; fractional exponents generally produce
irrational values and are outside the exact model. -/
def powFn (a b : ℚ) : Except String PyVal :=
  if b.den = 1 then
    if a = 0 ∧ b.num < 0 then .error "zero cannot be raised to a negative power"
    else .ok (.num (a ^ b.num))
  else .error "non-integer exponent is outside the exact model"

/-- Sequence two evaluations through a binary numeric operation: the left
operand is evaluated first, then the right, as Python does, and applying
the operation to a non-numeric object raises `TypeError`. -/
def evalBin (ra rb : Except String PyVal) (f : ℚ → ℚ → Except String PyVal) :
    Except String PyVal :=
  match ra with
  | .error m => .error m
  | .ok va =>
    match rb with
    | .error m => .error m
    | .ok vb =>
      match va, vb with
      | .num x, .num y => f x y
      | .obj d, _ => .error ("unsupported operand type " ++ d)
      | _, .obj d => .error ("unsupported operand type " ++ d)

/-- Evaluation of an expression in the restricted namespace: the result of
`eval(safe_expr, {"__builtins__": {}}, allowed_names)`.  A bare name bound
in the namespace (and the attribute `math.sqrt`) evaluates to the
corresponding non-numeric object; a name that does not resolve is a
`NameError`, raised before its argument is evaluated.  (Other attributes of
`math` are outside the modelled fragment and no theorem depends on them.) -/
def pyEval : PExpr → Except String PyVal
  | .num ip fp => .ok (.num (numValue ip fp))
  | .var s =>
    if s ∈ allowedNames || s = "math.sqrt" then .ok (.obj s)
    else .error ("name " ++ s ++ " is not defined")
  | .call f a =>
    if f ∈ allowedCallables then
      match pyEval a with
      | .error m => .error m
      | .ok (.num v) => applyFn f v
      | .ok (.obj d) => .error ("unsupported operand type " ++ d)
    else .error ("name " ++ f ++ " is not defined")
  | .neg a =>
    (match pyEval a with
     | .error m => .error m
     | .ok (.num v) => .ok (.num (-v))
     | .ok (.obj d) => .error ("unsupported operand type " ++ d))
  | .pos a => pyEval a
  | .add a b => evalBin (pyEval a) (pyEval b) (fun x y => .ok (.num (x + y)))
  | .sub a b => evalBin (pyEval a) (pyEval b) (fun x y => .ok (.num (x - y)))
  | .mul a b => evalBin (pyEval a) (pyEval b) (fun x y => .ok (.num (x * y)))
  | .div a b => evalBin (pyEval a) (pyEval b)
      (fun x y => if y = 0 then .error "division by zero" else .ok (.num (x / y)))
  | .pow a b => evalBin (pyEval a) (pyEval b) powFn

/-- The normalization performed by `calculate`:
`expression.replace('^', '**').replace('sqrt', 'math.sqrt')`. -/
def normalizeExpr (s : String) : String :=
  pyReplace (pyReplace s "^" "**") "sqrt" "math.sqrt"

/-- Normalize, parse and evaluate. -/
def calcEval (s : String) : Except String PyVal :=
  match parseCalc (normalizeExpr s) with
  | none => .error "invalid syntax"
  | some e => pyEval e

/-- The handler `ToolExecutor.calculate`: evaluate the expression inside a
`try`; on success return the value (a non-numeric object value yields a
non-JSON-serializable `result`, as Python does), on any failure return the
error message; either way echo the expression and never let the failure
escape the handler. -/
def calculate (s : String) : JObj :=
  match calcEval s with
  | .ok (.num v) => [("expression", .jstr s), ("result", .jrat v), ("success", .jbool true)]
  | .ok (.obj d) => [("expression", .jstr s), ("result", .jpy d), ("success", .jbool true)]
  | .error m => [("expression", .jstr s), ("error", .jstr m), ("success", .jbool false)]

/-- Syntactic side condition for claim C1: the expression is built only
from integer literals, the operators `+ - * **` (the image of `^`), unary
signs and parentheses — the fragment Python evaluates with exact
arbitrary-precision integers, so that the exact model provably coincides
with the program.  `/`, `sqrt` and fractional literals produce IEEE floats
and are excluded. -/
def PExpr.intArith : PExpr → Bool
  | .num _ none => true
  | .num _ (some _) => false
  | .var _ => false
  | .call _ _ => false
  | .neg a => a.intArith
  | .pos a => a.intArith
  | .add a b => a.intArith && b.intArith
  | .sub a b => a.intArith && b.intArith
  | .mul a b => a.intArith && b.intArith
  | .div _ _ => false
  | .pow a b => a.intArith && b.intArith

/-- Follows the claim wording (not the source): the mathematical value of
an integer arithmetic expression, with `^` interpreted as exponentiation;
undefined on negative exponents (where Python produces a float, outside
the exact integer fragment). -/
def intEval : PExpr → Option ℤ
  | .num ip none => some (ip : ℤ)
  | .num _ (some _) => none
  | .var _ => none
  | .call _ _ => none
  | .neg a => (intEval a).map (fun n => -n)
  | .pos a => intEval a
  | .add a b =>
    match intEval a, intEval b with
    | some x, some y => some (x + y)
    | _, _ => none
  | .sub a b =>
    match intEval a, intEval b with
    | some x, some y => some (x - y)
    | _, _ => none
  | .mul a b =>
    match intEval a, intEval b with
    | some x, some y => some (x * y)
    | _, _ => none
  | .div _ _ => none
  | .pow a b =>
    match intEval a, intEval b with
    | some x, some y => if 0 ≤ y then some (x ^ y.toNat) else none
    | _, _ => none

/-! ## `ToolExecutor.search` -/

/-- Python `str()` rendering used by the f-strings (only the string case is
exercised by the claims). -/
def pyStr : JVal → String
  | .jstr s => s
  | .jint n => toString n
  | .jrat q => toString q
  | .jbool b => if b then "True" else "False"
  | .jnull => "None"
  | .jarr _ => "[...]"
  | .jobj _ => "\x7b...\x7d"
  | .jpy d => "<" ++ d ++ ">"

/-- The synthetic result records built by the loop body of `search`. -/
def searchItems (q : String) (k : Nat) : List JVal :=
  (List.range k).map (fun i =>
    .jobj [("title", .jstr (q ++ " - 结果 " ++ toString (i+1))),
           ("url", .jstr ("https://example.com/search/" ++ toString (i+1))),
           ("snippet", .jstr ("这是关于 " ++ q ++ " 的第 " ++ toString (i+1) ++ " 条搜索结果..."))])

/-- The handler `ToolExecutor.search`: `range(min(limit, 5))` iterations
(`Int.toNat` models `range` of a negative count being empty), echo the
query, report `total = len(results)` and `success = True`. -/
def search (query : JVal) (limit : Int) : JObj :=
  let results := searchItems (pyStr query) (min limit 5).toNat
  [("query", query), ("results", .jarr results),
   ("total", .jint results.length), ("success", .jbool true)]

/-! ## `ToolExecutor.get_weather` -/

/-- The seeds of the random draws made by one `get_weather` call. -/
structure RandSeeds where
  s1 : Nat
  s2 : Nat
  s3 : Nat
  s4 : Nat

/-- Model of `random.randint(a, b)`: an arbitrary-seed value lying in
`[a, b]` whenever `a ≤ b`. -/
def randint (a b : Int) (s : Nat) : Int := a + ((s % (b - a + 1).toNat : ℕ) : Int)

/-- The fixed condition set of `get_weather`. -/
def conditionsList : List String := ["晴朗", "多云", "小雨", "阴天"]

/-- Python `units == "celsius"` on a JSON value. -/
def isCelsius : JVal → Bool
  | .jstr s => s = "celsius"
  | _ => false

/-- The handler `ToolExecutor.get_weather`.  For a Celsius draw
`temp_c ∈ [10, 35]`, Python's `int(temp_c * 9/5 + 32)` equals the integer
division `(9 * temp_c + 160) / 5`: the exact value is positive with
fractional part in `{0, 1/5, 2/5, 3/5, 4/5}`, so the float truncation is
the floor and no rounding step crosses an integer. -/
def get_weather (location units : JVal) (rng : RandSeeds) : JObj :=
  let temp_c := randint 10 35 rng.s1
  let temp : Int := if isCelsius units then temp_c else (9 * temp_c + 160) / 5
  [("location", location), ("temperature", .jint temp), ("units", units),
   ("condition", .jstr (conditionsList.getD (rng.s2 % conditionsList.length) "")),
   ("humidity", .jint (randint 40 80 rng.s3)),
   ("wind_speed", .jint (randint 5 25 rng.s4)),
   ("success", .jbool true)]

/-! ## Dispatch: `execute_tool_call` -/

/-- The Python exceptions that can escape `execute_tool_call`. -/
inductive PyError where
  | jsonDecode (msg : String)
  | typeError (msg : String)
deriving DecidableEq, Repr

/-- The `tool_call.function.arguments` payload: either a string that is not
valid JSON, or the parsed JSON object. -/
inductive ArgPayload where
  | malformed (raw : String)
  | parsed (obj : JObj)

/-- A tool-call request as received from the completion API. -/
structure ToolCallRequest where
  id : String
  name : String
  arguments : ArgPayload

/-- Model of `json.loads(tool_call.function.arguments)`: parsing a payload
that is not valid JSON raises `json.JSONDecodeError` (there is no handler
around the call in the source). -/
def parseArgs : ArgPayload → Except PyError JObj
  | .malformed raw => .error (.jsonDecode ("Expecting value: " ++ raw))
  | .parsed obj => .ok obj

/-- Python `f(**args)` keyword binding against a parameter list (name and
optional default): an argument key that is not a declared parameter, or a
missing required parameter, raises `TypeError` at the call site, before the
handler body starts. -/
def bindArgs (params : List (String × Option JVal)) (args : JObj) :
    Except String (List JVal) :=
  if args.all (fun kv => params.any (fun p => p.1 = kv.1)) then
    params.mapM (fun p =>
      match args.find? (fun kv => kv.1 = p.1) with
      | some kv => .ok kv.2
      | none =>
        match p.2 with
        | some d => .ok d
        | none => .error ("missing required argument " ++ p.1))
  else .error "got an unexpected keyword argument"

/-- The parameter lists of the three handlers. -/
def toolParams (n : String) : List (String × Option JVal) :=
  if n = "calculate" then [("expression", none)]
  else if n = "search" then [("query", none), ("limit", some (.jint 5))]
  else if n = "get_weather" then [("location", none), ("units", some (.jstr "celsius"))]
  else []

/-- Body of `calculate` after binding: a non-string expression fails at
`expression.replace(...)` inside the handler's `try`, so it is captured as
an error result, not raised. -/
def calcBody : List JVal → Except PyError JObj
  | [.jstr s] => .ok (calculate s)
  | [v] => .ok [("expression", v),
                ("error", .jstr "object has no attribute replace"),
                ("success", .jbool false)]
  | _ => .error (.typeError "internal arity mismatch")

/-- Body of `search` after binding: `search` has no `try`, so a limit on
which `min(limit, 5)` or `range` fails raises `TypeError` out of the
handler (Python `bool` counts as an integer). -/
def searchBody : List JVal → Except PyError JObj
  | [q, .jint n] => .ok (search q n)
  | [q, .jbool b] => .ok (search q (if b then 1 else 0))
  | [_, _] => .error (.typeError "unsupported operand type in min")
  | _ => .error (.typeError "internal arity mismatch")

/-- Body of `get_weather` after binding: never raises. -/
def weatherBody (rng : RandSeeds) : List JVal → Except PyError JObj
  | [loc, units] => .ok (get_weather loc units rng)
  | _ => .error (.typeError "internal arity mismatch")

/-- Test for a non-JSON-serializable value. -/
def JVal.isPyObj : JVal → Bool
  | .jpy _ => true
  | _ => false

/-- Model of the `print(f"... {json.dumps(result, ensure_ascii=False)[:100]}...")`
call on line 164 of the source, executed on every handler result before it
is returned: `json.dumps` raises `TypeError` when the result holds a
non-serializable value (the handlers only ever place such values — e.g. a
module-valued `calculate` result — directly in the result dict, never
nested, so the top-level check is exact for every reachable result). -/
def dumpGuard (o : JObj) : Except PyError JObj :=
  if o.all (fun kv => !kv.2.isPyObj) then .ok o
  else .error (.typeError "Object is not JSON serializable")

/-- The dispatch function `execute_tool_call`: strip the tool-name prefix
convention with one `str.replace` pass, parse the arguments (this can
raise), branch on the stripped name, bind keyword arguments (this can
raise) and run the handler body; an unmatched name yields the
`未知工具` ("unknown tool") error result.  Every produced result then
passes through the serializing print of line 164 (`dumpGuard`), which can
raise on a non-serializable result. -/
def execute_tool_call (rng : RandSeeds) (tc : ToolCallRequest) : Except PyError JObj :=
  let tool_name := pyReplace tc.name "mcp__gateway__" ""
  match parseArgs tc.arguments with
  | .error e => .error e
  | .ok args =>
    let result : Except PyError JObj :=
      if tool_name = "calculate" then
        match bindArgs (toolParams "calculate") args with
        | .error m => .error (.typeError m)
        | .ok vs => calcBody vs
      else if tool_name = "search" then
        match bindArgs (toolParams "search") args with
        | .error m => .error (.typeError m)
        | .ok vs => searchBody vs
      else if tool_name = "get_weather" then
        match bindArgs (toolParams "get_weather") args with
        | .error m => .error (.typeError m)
        | .ok vs => weatherBody rng vs
      else .ok [("error", .jstr ("未知工具: " ++ tool_name)), ("success", .jbool false)]
    match result with
    | .error e => .error e
    | .ok r => dumpGuard r

/-- An expression of the exact integer fragment whose value is defined:
on these, the model's evaluation provably coincides with Python's
(arbitrary-precision integer arithmetic, no floats, no objects). -/
def goodExpr (s : String) : Bool :=
  match parseCalc (normalizeExpr s) with
  | some e => e.intArith && (intEval e).isSome
  | none => false

/-- A request on which the dispatch step provably raises no exception:
the arguments are valid JSON binding to the handler's declared parameters
with schema-conformant types (string query/location/units, integer limit,
and for `calculate` an expression of the exact integer fragment), or the
stripped name is unregistered (the unknown-tool result never raises).
Requests outside this set can raise — at `json.loads`, at keyword binding,
inside `search`, or at the serializing print (line 164) when a handler
result holds a non-serializable value. -/
def goodRequest (tc : ToolCallRequest) : Bool :=
  match tc.arguments with
  | .malformed _ => false
  | .parsed obj =>
    let tn := pyReplace tc.name "mcp__gateway__" ""
    if tn = "calculate" then
      match bindArgs (toolParams "calculate") obj with
      | .ok [.jstr s] => goodExpr s
      | _ => false
    else if tn = "search" then
      match bindArgs (toolParams "search") obj with
      | .ok [.jstr _, .jint _] => true
      | _ => false
    else if tn = "get_weather" then
      match bindArgs (toolParams "get_weather") obj with
      | .ok [.jstr _, .jstr _] => true
      | _ => false
    else true

/-! ## The tool-call pass of the orchestration loop -/

/-- A conversation message as appended by `chat_with_tools`. -/
structure Message where
  role : String
  content : String
  tool_call_id : Option String := none
deriving DecidableEq, Repr

/-- The tool message appended for one executed tool call. -/
def toolMessage (tc : ToolCallRequest) (result : JObj) : Message :=
  { role := "tool", content := jsonDumps result, tool_call_id := some tc.id }

/-- The `for tool_call in message.tool_calls` pass of `chat_with_tools`:
execute each request in order, appending its tool message to the history;
an exception raised by a dispatch aborts the whole pass.  The index selects
the `RandSeeds` consumed by each call. -/
def runToolCalls (rng : Nat → RandSeeds) :
    Nat → List Message → List ToolCallRequest → Except PyError (List Message)
  | _, msgs, [] => .ok msgs
  | i, msgs, tc :: rest =>
    match execute_tool_call (rng i) tc with
    | .error e => .error e
    | .ok r => runToolCalls rng (i+1) (msgs ++ [toolMessage tc r]) rest

/-! ## Helper lemmas -/

lemma randint_bounds (a b : Int) (s : Nat) (h : a ≤ b) :
    a ≤ randint a b s ∧ randint a b s ≤ b := by
  unfold randint
  have h1 : 0 < (b - a + 1).toNat := by omega
  have h2 : s % (b - a + 1).toNat < (b - a + 1).toNat := Nat.mod_lt _ h1
  omega

lemma searchItems_length (q : String) (k : Nat) : (searchItems q k).length = k := by
  simp [searchItems]

/-! ## Claim C5 (GetWeather ranges and Fahrenheit conversion) -/

/-- Claim C5, counterexample: with the Celsius draw `C = 11` and
`units = "fahrenheit"`, the handler returns temperature `51`
(`int(11 * 9/5 + 32) = int(51.8)`), while `round(C×9/5+32)` as the claim
states is `52`; the code truncates, it does not round. -/
theorem c5_counterexample :
    randint 10 35 1 = 11
    ∧ (get_weather (.jstr "Beijing") (.jstr "fahrenheit") ⟨1, 0, 0, 0⟩).get "temperature"
        = some (.jint 51)
    ∧ round ((11 : ℚ) * 9 / 5 + 32) = 52 := by
  refine ⟨by decide, rfl, ?_⟩
  norm_num [round_eq]

/-- Claim C5, amended: every `get_weather` call — whatever the units
argument — returns `success = true`, humidity in `[40, 80]` and wind speed
in `[5, 25]`; the internally generated Celsius value lies in `[10, 35]`,
and when `units = "fahrenheit"` the returned temperature is the truncation
`int(C×9/5+32) = (9C+160)/5` of the conversion (not its rounding). -/
theorem c5_theorem (loc units : JVal) (rng : RandSeeds) :
    (get_weather loc units rng).get "success" = some (.jbool true)
    ∧ (∃ h : Int, (get_weather loc units rng).get "humidity"
          = some (.jint h) ∧ 40 ≤ h ∧ h ≤ 80)
    ∧ (∃ w : Int, (get_weather loc units rng).get "wind_speed"
          = some (.jint w) ∧ 5 ≤ w ∧ w ≤ 25)
    ∧ 10 ≤ randint 10 35 rng.s1 ∧ randint 10 35 rng.s1 ≤ 35
    ∧ (units = .jstr "fahrenheit" →
        (get_weather loc units rng).get "temperature"
          = some (.jint ((9 * randint 10 35 rng.s1 + 160) / 5))) := by
  refine ⟨rfl,
    ⟨randint 40 80 rng.s3, rfl, (randint_bounds 40 80 rng.s3 (by decide)).1,
      (randint_bounds 40 80 rng.s3 (by decide)).2⟩,
    ⟨randint 5 25 rng.s4, rfl, (randint_bounds 5 25 rng.s4 (by decide)).1,
      (randint_bounds 5 25 rng.s4 (by decide)).2⟩,
    (randint_bounds 10 35 rng.s1 (by decide)).1,
    (randint_bounds 10 35 rng.s1 (by decide)).2, ?_⟩
  intro he
  subst he
  rfl

/-- Claim C5, witness at `units = "fahrenheit"` with the Celsius draw 11. -/
theorem c5_witness :
    (get_weather (.jstr "Beijing") (.jstr "fahrenheit") ⟨1, 2, 3, 4⟩).get "success"
        = some (.jbool true)
    ∧ (∃ h : Int, (get_weather (.jstr "Beijing") (.jstr "fahrenheit") ⟨1, 2, 3, 4⟩).get "humidity"
          = some (.jint h) ∧ 40 ≤ h ∧ h ≤ 80)
    ∧ (∃ w : Int, (get_weather (.jstr "Beijing") (.jstr "fahrenheit") ⟨1, 2, 3, 4⟩).get "wind_speed"
          = some (.jint w) ∧ 5 ≤ w ∧ w ≤ 25)
    ∧ 10 ≤ randint 10 35 1 ∧ randint 10 35 1 ≤ 35
    ∧ (get_weather (.jstr "Beijing") (.jstr "fahrenheit") ⟨1, 2, 3, 4⟩).get "temperature"
        = some (.jint ((9 * randint 10 35 1 + 160) / 5)) := by
  obtain ⟨h1, h2, h3, h4, h5, h6⟩ :=
    c5_theorem (.jstr "Beijing") (.jstr "fahrenheit") ⟨1, 2, 3, 4⟩
  exact ⟨h1, h2, h3, h4, h5, h6 rfl⟩

/-! ## Claim C9 (units other than "celsius" take the Fahrenheit branch) -/

/-- Claim C9: for any units string other than `"celsius"` (including values
outside the declared enum, such as `"kelvin"`), `get_weather` applies the
Fahrenheit conversion `int(C×9/5+32)`, echoes the units string unchanged and
returns `success = true`; the units argument is never validated. -/
theorem c9_theorem (loc : JVal) (units : String) (rng : RandSeeds)
    (h : units ≠ "celsius") :
    (get_weather loc (.jstr units) rng).get "temperature"
        = some (.jint ((9 * randint 10 35 rng.s1 + 160) / 5))
    ∧ (get_weather loc (.jstr units) rng).get "units" = some (.jstr units)
    ∧ (get_weather loc (.jstr units) rng).get "success" = some (.jbool true) := by
  have hc : isCelsius (.jstr units) = false := by simp [isCelsius, h]
  refine ⟨?_, ?_, ?_⟩ <;> simp [get_weather, hc, JObj.get, List.find?]

/-- Claim C9, witness at `units = "kelvin"`. -/
theorem c9_witness :
    (get_weather (.jstr "Shanghai") (.jstr "kelvin") ⟨2, 3, 4, 5⟩).get "temperature"
        = some (.jint ((9 * randint 10 35 2 + 160) / 5))
    ∧ (get_weather (.jstr "Shanghai") (.jstr "kelvin") ⟨2, 3, 4, 5⟩).get "units"
        = some (.jstr "kelvin")
    ∧ (get_weather (.jstr "Shanghai") (.jstr "kelvin") ⟨2, 3, 4, 5⟩).get "success"
        = some (.jbool true) :=
  c9_theorem (.jstr "Shanghai") "kelvin" ⟨2, 3, 4, 5⟩ (by decide)

/-! ## Claim C4 (Search truncation) -/

/-- Claim C4, counterexample: at the integer limit `L = -1` the handler
returns `0` records (`range` of a negative count is empty), not
`min(L, 5) = -1` records as the claim states for every integer `L`. -/
theorem c4_counterexample :
    (search (.jstr "机器学习") (-1)).get "results" = some (.jarr [])
    ∧ (0 : Int) ≠ min (-1 : Int) 5 :=
  ⟨rfl, by decide⟩

/-- Claim C4, amended: for every query string and every nonnegative integer
limit `L`, Search returns `success = true` with exactly `min(L, 5)` records,
the `i`-th record's title embedding the query and the 1-based rank `i`, and
`total` equal to the number of returned records.  (For negative `L` the
handler returns `max 0 (min L 5) = 0` records.) -/
theorem c4_theorem (q : String) (L : Int) (hL : 0 ≤ L) :
    ∃ items : List JVal,
      search (.jstr q) L
        = [("query", .jstr q), ("results", .jarr items),
           ("total", .jint (min L 5)), ("success", .jbool true)]
      ∧ (items.length : Int) = min L 5
      ∧ ∀ i (h : i < items.length), ∃ url snip,
          items.get ⟨i, h⟩
            = .jobj [("title", .jstr (q ++ " - 结果 " ++ toString (i+1))),
                     ("url", url), ("snippet", snip)] := by
  refine ⟨searchItems q (min L 5).toNat, ?_, ?_, ?_⟩
  · have hcast : (((min L 5).toNat : Int)) = min L 5 := by omega
    simp [search, pyStr, searchItems_length, hcast]
  · rw [searchItems_length]; omega
  · intro i h
    refine ⟨.jstr ("https://example.com/search/" ++ toString (i+1)),
      .jstr ("这是关于 " ++ q ++ " 的第 " ++ toString (i+1) ++ " 条搜索结果..."), ?_⟩
    simp only [searchItems, List.get_eq_getElem, List.getElem_map, List.getElem_range]

/-- Claim C4, witness at `L = 7`: exactly `min(7, 5) = 5` records. -/
theorem c4_witness :
    ∃ items : List JVal,
      search (.jstr "北京") 7
        = [("query", .jstr "北京"), ("results", .jarr items),
           ("total", .jint (min 7 5)), ("success", .jbool true)]
      ∧ (items.length : Int) = min 7 5
      ∧ ∀ i (h : i < items.length), ∃ url snip,
          items.get ⟨i, h⟩
            = .jobj [("title", .jstr ("北京" ++ " - 结果 " ++ toString (i+1))),
                     ("url", url), ("snippet", snip)] :=
  c4_theorem "北京" 7 (by decide)

/-! ## Claim C6 (unknown tool names) -/

/-- Claim C6: a request whose stripped tool name matches none of the
registered handlers and whose arguments parse as JSON yields the
unknown-tool error result (`未知工具`, the source's rendering of
"unknown tool", followed by the stripped name) with `success = false`, and
dispatch returns normally instead of raising. -/
theorem c6_theorem (rng : RandSeeds) (id name : String) (obj : JObj)
    (h1 : pyReplace name "mcp__gateway__" "" ≠ "calculate")
    (h2 : pyReplace name "mcp__gateway__" "" ≠ "search")
    (h3 : pyReplace name "mcp__gateway__" "" ≠ "get_weather") :
    execute_tool_call rng ⟨id, name, .parsed obj⟩
      = .ok [("error", .jstr ("未知工具: " ++ pyReplace name "mcp__gateway__" "")),
             ("success", .jbool false)] := by
  simp [execute_tool_call, parseArgs, h1, h2, h3, dumpGuard, JVal.isPyObj]

/-- Claim C6, witness at the unregistered name `mcp__gateway__translate`. -/
theorem c6_witness :
    execute_tool_call ⟨0, 0, 0, 0⟩ ⟨"call_1", "mcp__gateway__translate", .parsed []⟩
      = .ok [("error", .jstr ("未知工具: " ++ pyReplace "mcp__gateway__translate" "mcp__gateway__" "")),
             ("success", .jbool false)] :=
  c6_theorem ⟨0, 0, 0, 0⟩ "call_1" "mcp__gateway__translate" []
    (by decide) (by decide) (by decide)

/-! ## Claim C7 (malformed JSON arguments) -/

/-- Claim C7, counterexample: a request whose arguments payload is not
valid JSON makes `execute_tool_call` raise the JSON decode error (the
`json.loads` call has no handler), instead of producing a ToolResult with
`success = false` as the claim states. -/
theorem c7_counterexample :
    execute_tool_call ⟨0, 0, 0, 0⟩ ⟨"call_1", "mcp__gateway__calculate", .malformed "not json"⟩
      = .error (.jsonDecode ("Expecting value: " ++ "not json")) := rfl

/-- Claim C7, amended: for every tool-call request whose arguments payload
is not valid JSON, dispatch raises the JSON decode exception — which
propagates out of the loop and aborts the turn — rather than converting the
failure into a ToolResult. -/
theorem c7_theorem (rng : RandSeeds) (id name raw : String) :
    execute_tool_call rng ⟨id, name, .malformed raw⟩
      = .error (.jsonDecode ("Expecting value: " ++ raw)) := rfl

/-! ## Claim C8 (argument binding failures) -/

/-- Claim C8, counterexample: dispatching `calculate` with an empty
arguments object (the required `expression` parameter missing) raises an
uncaught `TypeError` from keyword binding — the error happens at the call
site, outside the handler's `try` — instead of returning a ToolResult with
`success = false` as the claim states. -/
theorem c8_counterexample :
    execute_tool_call ⟨0, 0, 0, 0⟩ ⟨"call_1", "mcp__gateway__calculate", .parsed []⟩
      = .error (.typeError ("missing required argument " ++ "expression")) := rfl

/-- Claim C8, amended: for every dispatched tool call with a recognized
tool name whose parsed arguments fail keyword binding (a missing required
parameter or an undeclared parameter name), dispatch raises an uncaught
`TypeError` that propagates out of the dispatch step and aborts the
orchestration loop; it is not captured in a ToolResult.  (Only failures
raised inside the `calculate` handler's own body, such as a wrong-typed
expression, are captured in the result's error field.) -/
theorem c8_theorem (rng : RandSeeds) (id name : String) (obj : JObj) (m : String)
    (hmem : pyReplace name "mcp__gateway__" ""
        ∈ (["calculate", "search", "get_weather"] : List String))
    (hbind : bindArgs (toolParams (pyReplace name "mcp__gateway__" "")) obj = .error m) :
    execute_tool_call rng ⟨id, name, .parsed obj⟩ = .error (.typeError m) := by
  have hmem2 : pyReplace name "mcp__gateway__" "" = "calculate"
      ∨ pyReplace name "mcp__gateway__" "" = "search"
      ∨ pyReplace name "mcp__gateway__" "" = "get_weather" := by
    simpa using hmem
  rcases hmem2 with h | h | h <;>
    · rw [h] at hbind
      simp [execute_tool_call, parseArgs, h, hbind]

/-- Claim C8, witness: `search` called with an undeclared parameter name
raises the unexpected-keyword `TypeError`. -/
theorem c8_witness :
    execute_tool_call ⟨0, 0, 0, 0⟩
        ⟨"call_2", "mcp__gateway__search", .parsed [("query", .jstr "ml"), ("limitt", .jint 3)]⟩
      = .error (.typeError "got an unexpected keyword argument") :=
  c8_theorem ⟨0, 0, 0, 0⟩ "call_2" "mcp__gateway__search"
    [("query", .jstr "ml"), ("limitt", .jint 3)] "got an unexpected keyword argument"
    (by decide) rfl

/-! ## Claim C10 (prefix stripping is a replace of every occurrence) -/

/-- Claim C10, counterexample: `str.replace` removes occurrences in one
left-to-right pass over the original string, so an occurrence formed across
the seam of a removed one survives.  For the name
`mcp__gatmcp__gateway__eway__calculate`, the single pass yields
`mcp__gateway__calculate` (still containing the substring), and dispatch
treats it as an unknown tool — while dispatching the name with that
occurrence removed runs the `calculate` handler.  Dispatch therefore does
not behave on `N` as on `N` with all occurrences removed. -/
theorem c10_counterexample :
    pyReplace "mcp__gatmcp__gateway__eway__calculate" "mcp__gateway__" ""
      = "mcp__gateway__calculate"
    ∧ execute_tool_call ⟨0, 0, 0, 0⟩
        ⟨"call_1", "mcp__gatmcp__gateway__eway__calculate", .parsed [("expression", .jstr "5")]⟩
      = .ok [("error", .jstr "未知工具: mcp__gateway__calculate"), ("success", .jbool false)]
    ∧ execute_tool_call ⟨0, 0, 0, 0⟩
        ⟨"call_1", "mcp__gateway__calculate", .parsed [("expression", .jstr "5")]⟩
      = .ok [("expression", .jstr "5"), ("result", .jrat 5), ("success", .jbool true)]
    ∧ execute_tool_call ⟨0, 0, 0, 0⟩
        ⟨"call_1", "mcp__gatmcp__gateway__eway__calculate", .parsed [("expression", .jstr "5")]⟩
      ≠ execute_tool_call ⟨0, 0, 0, 0⟩
        ⟨"call_1", "mcp__gateway__calculate", .parsed [("expression", .jstr "5")]⟩ := by
  have hcalc : calculate "5"
      = [("expression", .jstr "5"), ("result", .jrat 5), ("success", .jbool true)] := by
    have hp : parseCalc (normalizeExpr "5") = some (.num 5 none) := by decide
    norm_num [calculate, calcEval, hp, pyEval, numValue]
  have hrun : execute_tool_call ⟨0, 0, 0, 0⟩
      ⟨"call_1", "mcp__gateway__calculate", .parsed [("expression", .jstr "5")]⟩
      = .ok (calculate "5") := rfl
  have hunk : execute_tool_call ⟨0, 0, 0, 0⟩
      ⟨"call_1", "mcp__gatmcp__gateway__eway__calculate", .parsed [("expression", .jstr "5")]⟩
      = .ok [("error", .jstr "未知工具: mcp__gateway__calculate"), ("success", .jbool false)] := rfl
  refine ⟨by decide, hunk, by rw [hrun, hcalc], ?_⟩
  rw [hrun, hcalc, hunk]
  intro h
  have h2 := Except.ok.inj h
  have h4 := congrArg (fun l => (l.headD ("", JVal.jnull)).1) h2
  simp at h4

/-- Claim C10, amended: the dispatch step strips the tool name with a
single left-to-right non-overlapping `replace` pass (deleting every
occurrence found in that pass, not only a leading prefix).  For every name
on which that pass is exhaustive — one more pass removes nothing, which
covers repeated or mid-name occurrences that do not straddle a seam —
dispatch behaves exactly as on the stripped name. -/
theorem c10_theorem (rng : RandSeeds) (id name : String) (args : ArgPayload)
    (h : pyReplace (pyReplace name "mcp__gateway__" "") "mcp__gateway__" ""
        = pyReplace name "mcp__gateway__" "") :
    execute_tool_call rng ⟨id, name, args⟩
      = execute_tool_call rng ⟨id, pyReplace name "mcp__gateway__" "", args⟩ := by
  simp only [execute_tool_call, h]

/-- Claim C10, witness: a name with the substring repeated resolves exactly
as the fully stripped name. -/
theorem c10_witness :
    execute_tool_call ⟨0, 0, 0, 0⟩
        ⟨"call_3", "mcp__gateway__mcp__gateway__get_weather", .parsed [("location", .jstr "上海")]⟩
      = execute_tool_call ⟨0, 0, 0, 0⟩
        ⟨"call_3", pyReplace "mcp__gateway__mcp__gateway__get_weather" "mcp__gateway__" "",
         .parsed [("location", .jstr "上海")]⟩ :=
  c10_theorem ⟨0, 0, 0, 0⟩ "call_3" "mcp__gateway__mcp__gateway__get_weather"
    (.parsed [("location", .jstr "上海")]) (by decide)

/-! ## Shared lemmas: the exact integer fragment and raise-free dispatch -/

lemma intEval_ok : ∀ (e : PExpr), e.intArith = true → ∀ n : ℤ, intEval e = some n →
    pyEval e = .ok (.num (n : ℚ)) := by
  intro e
  induction e with
  | num ip fp =>
    intro ha n hv
    cases fp with
    | none =>
      simp only [intEval, Option.some.injEq] at hv
      subst hv
      simp [pyEval, numValue]
    | some l => simp [PExpr.intArith] at ha
  | var s => intro ha; simp [PExpr.intArith] at ha
  | call f a iha => intro ha; simp [PExpr.intArith] at ha
  | neg a iha =>
    intro ha n hv
    simp only [PExpr.intArith] at ha
    simp [intEval] at hv
    obtain ⟨m, hm, hneg⟩ := hv
    have hpa := iha ha m hm
    simp [pyEval, hpa, ← hneg]
  | pos a iha =>
    intro ha n hv
    simp only [PExpr.intArith] at ha
    simp only [intEval] at hv
    have hpa := iha ha n hv
    simpa [pyEval] using hpa
  | add a b iha ihb =>
    intro ha n hv
    simp only [PExpr.intArith, Bool.and_eq_true] at ha
    rcases hA : intEval a with _ | x <;> rcases hB : intEval b with _ | y <;>
      simp only [intEval, hA, hB, Option.some.injEq] at hv
    · exact absurd hv (by simp)
    · exact absurd hv (by simp)
    · exact absurd hv (by simp)
    · have hpa := iha ha.1 x hA
      have hpb := ihb ha.2 y hB
      subst hv
      simp [pyEval, evalBin, hpa, hpb]
  | sub a b iha ihb =>
    intro ha n hv
    simp only [PExpr.intArith, Bool.and_eq_true] at ha
    rcases hA : intEval a with _ | x <;> rcases hB : intEval b with _ | y <;>
      simp only [intEval, hA, hB, Option.some.injEq] at hv
    · exact absurd hv (by simp)
    · exact absurd hv (by simp)
    · exact absurd hv (by simp)
    · have hpa := iha ha.1 x hA
      have hpb := ihb ha.2 y hB
      subst hv
      simp [pyEval, evalBin, hpa, hpb]
  | mul a b iha ihb =>
    intro ha n hv
    simp only [PExpr.intArith, Bool.and_eq_true] at ha
    rcases hA : intEval a with _ | x <;> rcases hB : intEval b with _ | y <;>
      simp only [intEval, hA, hB, Option.some.injEq] at hv
    · exact absurd hv (by simp)
    · exact absurd hv (by simp)
    · exact absurd hv (by simp)
    · have hpa := iha ha.1 x hA
      have hpb := ihb ha.2 y hB
      subst hv
      simp [pyEval, evalBin, hpa, hpb]
  | div a b iha ihb => intro ha; simp [PExpr.intArith] at ha
  | pow a b iha ihb =>
    intro ha n hv
    simp only [PExpr.intArith, Bool.and_eq_true] at ha
    rcases hA : intEval a with _ | x <;> rcases hB : intEval b with _ | y <;>
      simp only [intEval, hA, hB] at hv
    · exact absurd hv (by simp)
    · exact absurd hv (by simp)
    · exact absurd hv (by simp)
    · by_cases hy : 0 ≤ y
      · rw [if_pos hy] at hv
        simp only [Option.some.injEq] at hv
        have hpa := iha ha.1 x hA
        have hpb := ihb ha.2 y hB
        subst hv
        have hfn : powFn (x : ℚ) (y : ℚ) = .ok (.num ((x ^ y.toNat : ℤ) : ℚ)) := by
          have hden : ((y : ℤ) : ℚ).den = 1 := Rat.den_intCast y
          have hnum : ((y : ℤ) : ℚ).num = y := Rat.num_intCast y
          rw [powFn, if_pos hden, if_neg (by rw [hnum]; rintro ⟨h0, hlt⟩; omega)]
          have h2 : ((x : ℤ) : ℚ) ^ ((y : ℤ) : ℚ).num = ((x ^ y.toNat : ℤ) : ℚ) := by
            rw [hnum, Int.cast_pow, ← zpow_natCast ((x : ℤ) : ℚ) y.toNat,
              Int.toNat_of_nonneg hy]
          rw [h2]
        simp [pyEval, evalBin, hpa, hpb, hfn]
      · rw [if_neg hy] at hv
        exact absurd hv (by simp)

lemma calculate_int (s : String) (e : PExpr) (n : ℤ)
    (hp : parseCalc (normalizeExpr s) = some e)
    (ha : e.intArith = true)
    (hv : intEval e = some n) :
    calculate s
      = [("expression", .jstr s), ("result", .jrat (n : ℚ)), ("success", .jbool true)] := by
  have h2 : calcEval s = .ok (.num (n : ℚ)) := by
    rw [calcEval, hp]
    exact intEval_ok e ha n hv
  simp [calculate, h2]

lemma good_dispatch_ok (rng : RandSeeds) (tc : ToolCallRequest)
    (h : goodRequest tc = true) : ∃ r, execute_tool_call rng tc = .ok r := by
  obtain ⟨id, name, args⟩ := tc
  cases args with
  | malformed raw => simp [goodRequest] at h
  | parsed obj =>
    simp only [goodRequest] at h
    by_cases h1 : pyReplace name "mcp__gateway__" "" = "calculate"
    · rw [if_pos h1] at h
      split at h
      next s heq =>
        simp only [goodExpr] at h
        split at h
        next e hp =>
          simp only [Bool.and_eq_true, Option.isSome_iff_exists] at h
          obtain ⟨ha, n, hn⟩ := h
          have hcalc := calculate_int s e n hp ha hn
          refine ⟨[("expression", .jstr s), ("result", .jrat (n : ℚ)),
            ("success", .jbool true)], ?_⟩
          simp [execute_tool_call, parseArgs, h1, heq, calcBody, hcalc, dumpGuard,
            JVal.isPyObj]
        next => exact absurd h (by simp)
      next => exact absurd h (by simp)
    · rw [if_neg h1] at h
      by_cases h2 : pyReplace name "mcp__gateway__" "" = "search"
      · rw [if_pos h2] at h
        split at h
        next q m heq =>
          refine ⟨search (.jstr q) m, ?_⟩
          simp [execute_tool_call, parseArgs, h1, h2, heq, searchBody, dumpGuard,
            JVal.isPyObj, search]
        next => exact absurd h (by simp)
      · rw [if_neg h2] at h
        by_cases h3 : pyReplace name "mcp__gateway__" "" = "get_weather"
        · rw [if_pos h3] at h
          split at h
          next l u heq =>
            refine ⟨get_weather (.jstr l) (.jstr u) rng, ?_⟩
            simp [execute_tool_call, parseArgs, h1, h2, h3, heq, weatherBody, dumpGuard,
              JVal.isPyObj, get_weather]
          next => exact absurd h (by simp)
        · rw [if_neg h3] at h
          refine ⟨[("error", .jstr ("未知工具: " ++ pyReplace name "mcp__gateway__" "")),
            ("success", .jbool false)], ?_⟩
          simp [execute_tool_call, parseArgs, h1, h2, h3, dumpGuard, JVal.isPyObj]

/-! ## Claim C2 (the tool-call pass appends results in order) -/

lemma runToolCalls_ok (rng : Nat → RandSeeds) (calls : List ToolCallRequest) :
    ∀ (k : Nat) (msgs : List Message),
      (∀ i (h : i < calls.length), ∃ r,
          execute_tool_call (rng (k + i)) (calls.get ⟨i, h⟩) = .ok r) →
      ∃ out, runToolCalls rng k msgs calls = .ok out
        ∧ msgs <+: out
        ∧ out.length = msgs.length + calls.length
        ∧ ∀ i (h : i < calls.length), ∃ r,
            execute_tool_call (rng (k + i)) (calls.get ⟨i, h⟩) = .ok r
            ∧ out.get? (msgs.length + i) = some (toolMessage (calls.get ⟨i, h⟩) r) := by
  induction calls with
  | nil =>
    intro k msgs _
    exact ⟨msgs, rfl, List.prefix_refl _, by simp, fun i h => absurd h (by simp)⟩
  | cons tc rest ih =>
    intro k msgs hok
    obtain ⟨r0, hr0⟩ := hok 0 (by simp)
    have hr0k : execute_tool_call (rng k) tc = .ok r0 := by
      simpa using hr0
    have hrest : ∀ i (h : i < rest.length), ∃ r,
        execute_tool_call (rng (k + 1 + i)) (rest.get ⟨i, h⟩) = .ok r := by
      intro i h
      obtain ⟨r, hr⟩ := hok (i + 1) (by simpa using Nat.succ_lt_succ h)
      refine ⟨r, ?_⟩
      have hidx : k + 1 + i = k + (i + 1) := by omega
      rw [hidx]
      simpa using hr
    obtain ⟨out, hrun, hpre, hlen, hget⟩ := ih (k + 1) (msgs ++ [toolMessage tc r0]) hrest
    refine ⟨out, ?_, ?_, ?_, ?_⟩
    · simp only [runToolCalls, hr0k]
      exact hrun
    · exact ((List.prefix_append msgs [toolMessage tc r0]).trans hpre)
    · rw [hlen, List.length_append]
      simp
      omega
    · intro i h
      match i with
      | 0 =>
        refine ⟨r0, by simpa using hr0, ?_⟩
        obtain ⟨t, ht⟩ := hpre
        rw [← ht, List.append_assoc, List.get?_eq_getElem?]
        rw [List.getElem?_append_right (by omega)]
        simp
      | i + 1 =>
        obtain ⟨r, hr, hgi⟩ := hget i (by simpa using Nat.lt_of_succ_lt_succ h)
        refine ⟨r, ?_, ?_⟩
        · have hidx : k + (i + 1) = k + 1 + i := by omega
          rw [hidx]
          simpa using hr
        · have hidx : msgs.length + (i + 1) = (msgs ++ [toolMessage tc r0]).length + i := by
            simp; omega
          rw [hidx]
          simpa using hgi

/-- Claim C2, amended: during one pass over a response carrying `n`
tool-call requests, provided every request is well-formed for its handler
(valid JSON arguments binding to the declared parameters with
schema-conformant types, and for `calculate` an expression of the exact
integer fragment — or an unregistered tool name), so that no dispatch
raises, the loop dispatches the requests sequentially in order and appends
exactly `n` tool messages in that order, the `i`-th having `content` equal
to the JSON-serialized ToolResult of the `i`-th request and `tool_call_id`
equal to that request's id; the prior history is preserved as a prefix
(append-only, never removed or reordered).  Outside this set a dispatch can
raise — at `json.loads`, at keyword binding, or at the serializing print
when a handler result is not JSON-serializable — aborting the pass. -/
theorem c2_theorem (rng : Nat → RandSeeds) (msgs : List Message)
    (calls : List ToolCallRequest)
    (hok : ∀ i (h : i < calls.length), goodRequest (calls.get ⟨i, h⟩) = true) :
    ∃ out, runToolCalls rng 0 msgs calls = .ok out
      ∧ msgs <+: out
      ∧ out.length = msgs.length + calls.length
      ∧ ∀ i (h : i < calls.length), ∃ r,
          execute_tool_call (rng i) (calls.get ⟨i, h⟩) = .ok r
          ∧ out.get? (msgs.length + i) = some (toolMessage (calls.get ⟨i, h⟩) r) := by
  have hok2 : ∀ i (h : i < calls.length), ∃ r,
      execute_tool_call (rng i) (calls.get ⟨i, h⟩) = .ok r :=
    fun i h => good_dispatch_ok (rng i) _ (hok i h)
  have h0 := runToolCalls_ok rng calls 0 msgs (by simpa using hok2)
  simpa using h0

/-- Claim C2, witness: a pass over one successful `calculate` request
appends exactly one tool message carrying its serialized result. -/
theorem c2_witness :
    ∃ out, runToolCalls (fun _ => ⟨0, 0, 0, 0⟩) 0 []
        [⟨"call_1", "mcp__gateway__calculate", .parsed [("expression", .jstr "5")]⟩]
      = .ok out
      ∧ ([] : List Message) <+: out
      ∧ out.length = 0 + 1
      ∧ ∀ i (h : i < 1), ∃ r,
          execute_tool_call ⟨0, 0, 0, 0⟩
            (List.get [⟨"call_1", "mcp__gateway__calculate", .parsed [("expression", .jstr "5")]⟩] ⟨i, h⟩)
            = .ok r
          ∧ out.get? (0 + i)
            = some (toolMessage
                (List.get [⟨"call_1", "mcp__gateway__calculate", .parsed [("expression", .jstr "5")]⟩] ⟨i, h⟩) r) :=
  c2_theorem (fun _ => ⟨0, 0, 0, 0⟩) []
    [⟨"call_1", "mcp__gateway__calculate", .parsed [("expression", .jstr "5")]⟩]
    (by
      intro i h
      have h1 : i < 1 := by simpa using h
      have hi : i = 0 := by omega
      subst hi
      show goodRequest
        ⟨"call_1", "mcp__gateway__calculate", .parsed [("expression", .jstr "5")]⟩ = true
      decide)

/-- Claim C2, counterexample: a pass over a single request with malformed
JSON arguments raises instead of appending its tool message — the pass
produces no history at all, not the `n = 1` appended messages the claim
states. -/
theorem c2_counterexample :
    runToolCalls (fun _ => ⟨0, 0, 0, 0⟩) 0 []
        [⟨"call_1", "mcp__gateway__calculate", .malformed "oops"⟩]
      = .error (.jsonDecode ("Expecting value: " ++ "oops"))
    ∧ ∀ out : List Message,
        runToolCalls (fun _ => ⟨0, 0, 0, 0⟩) 0 []
            [⟨"call_1", "mcp__gateway__calculate", .malformed "oops"⟩]
          ≠ .ok out := by
  have he : runToolCalls (fun _ => ⟨0, 0, 0, 0⟩) 0 []
      [⟨"call_1", "mcp__gateway__calculate", .malformed "oops"⟩]
      = .error (.jsonDecode ("Expecting value: " ++ "oops")) := rfl
  refine ⟨he, fun out h => ?_⟩
  rw [he] at h
  exact Except.noConfusion h

/-! ## Claim C1 (Calculate on arithmetic expressions) -/

/-- Claim C1, counterexample: the expression string `1/0` is built only
from numeric literals and `/`, yet `calculate` returns `success = false`
with a division-by-zero error, not `success = true` with a numeric result
as the claim states for every such expression. -/
theorem c1_counterexample :
    calculate "1/0" = [("expression", .jstr "1/0"),
      ("error", .jstr "division by zero"), ("success", .jbool false)] := by
  have hp : parseCalc (normalizeExpr "1/0") = some (.div (.num 1 none) (.num 0 none)) := by
    decide
  simp [calculate, calcEval, hp, pyEval, evalBin, numValue]

/-- Claim C1, amended: for every arithmetic expression string built only
from integer numeric literals, the operators `+ - * ^` (with nonnegative
exponents), unary signs and parentheses — the fragment Python evaluates in
exact arbitrary-precision integer arithmetic — `calculate` returns
`success = true`, echoes the original expression, and the result equals the
mathematical value of the expression with `^` interpreted as
exponentiation.  Expressions using `/`, `sqrt`, fractional literals or
negative exponents produce IEEE floats, whose rounding lies outside the
exact model, and expressions from the claimed tokens whose evaluation fails
(such as `1/0`) return `success = false`. -/
theorem c1_theorem (s : String) (e : PExpr) (n : ℤ)
    (hp : parseCalc (normalizeExpr s) = some e)
    (ha : e.intArith = true)
    (hv : intEval e = some n) :
    calculate s
      = [("expression", .jstr s), ("result", .jrat (n : ℚ)), ("success", .jbool true)] :=
  calculate_int s e n hp ha hv

/-- Claim C1, witness: `2*3` evaluates to `6` with the expression echoed. -/
theorem c1_witness :
    calculate "2*3" = [("expression", .jstr "2*3"),
      ("result", .jrat ((6 : ℤ) : ℚ)), ("success", .jbool true)] :=
  c1_theorem "2*3" (.mul (.num 2 none) (.num 3 none)) 6
    (by decide) (by decide) (by decide)

end Gateway
